import Mathlib

/-!
Verification of the notebook renderer in `src/main.py` (`display_notebook`).

The renderer reads a Jupyter notebook JSON document and walks its `cells`
list, emitting display blocks through streamlit calls (`st.markdown`,
`st.code`, `st.text`, `st.image`, `st.error`, `st.info`).  We embed the
renderer shallowly: each streamlit call becomes one `Block` in an ordered
output list, and the outcome of `open` + `json.load` (lines 11-12 of
`src/main.py`, the only operations guarded by the `try`/`except` that can
fail) is abstracted as an `Except String Notebook` input, `.error e`
standing for any caught exception whose `str` is `e` (missing file,
undecodable UTF-8, malformed JSON).
-/

/-- One display block, i.e. one streamlit emission of `display_notebook`.
`markdown`, `code`, `text`, `image` mirror `st.markdown`, `st.code`,
`st.text`, `st.image`; `error` and `info` mirror the diagnostic calls of
the `except` branch.  `imageBytes` is emitted by no code path of
`src/main.py`; it exists only to state the specification's
"raw decoded bytes handed to the display layer" notion. -/
inductive Block where
  | markdown (s : String)
  | code (s : String) (language : String)
  | text (s : String)
  | image (url : String)
  | imageBytes (bytes : List Nat)
  | error (s : String)
  | info (s : String)
deriving DecidableEq, Repr

/-- The `data` mapping of an output, restricted to the two MIME keys
`src/main.py` reads: `data['text/plain']` (list of fragments) and
`data['image/png']` (base64 text used verbatim in an f-string). -/
structure OutputData where
  text_plain : Option (List String)
  image_png : Option String
deriving DecidableEq, Repr

/-- One entry of a code cell's `outputs` list.  A field is `none` when the
key is absent from the JSON object.  `src/main.py` only ever tests
`'text' in output` and `'data' in output`; `output_type` and `traceback`
are carried so that theorems can speak about notebook error outputs,
which the code never inspects. -/
structure Output where
  output_type : Option String
  text : Option (List String)
  data : Option OutputData
  traceback : Option (List String)
deriving DecidableEq, Repr

/-- One notebook cell: `cell.get('cell_type', '')`, `cell.get('source', '')`
and `cell.get('outputs', [])` of `src/main.py` read these three keys, each
with a default when absent (`none` here). -/
structure Cell where
  cell_type : Option String
  source : Option (List String)
  outputs : Option (List Output)
deriving DecidableEq, Repr

/-- The parsed notebook document: `notebook_content.get('cells', [])` is the
only key read. -/
structure Notebook where
  cells : Option (List Cell)
deriving DecidableEq, Repr

/-- Classification of a single output, `src/main.py` lines 37-46:
`if 'text' in output` emits `st.text(''.join(output['text']))`;
`elif 'data' in output` emits `st.code` for `text/plain` and `st.image`
of the f-string `data:image/png;base64,{image_data}` for `image/png`
(both independent `if`s); any other shape emits nothing. -/
def renderOutput (output : Output) : List Block :=
  match output.text with
  | some t => [Block.text (String.join t)]
  | none =>
    match output.data with
    | some data =>
        (match data.text_plain with
         | some tp => [Block.code (String.join tp) "python"]
         | none => [])
        ++ (match data.image_png with
            | some image_data =>
                [Block.image ("data:image/png;base64," ++ image_data)]
            | none => [])
    | none => []

/-- Rendering of the cell at 0-based loop index `i`, `src/main.py`
lines 19-48: markdown cells emit heading, source, `---`; code cells emit
heading, code, an `**Output:**` label when `outputs` is non-empty followed
by the classified outputs, then `---`; any other `cell_type` emits
nothing. -/
def renderCell (i : Nat) (cell : Cell) : List Block :=
  let cell_type := cell.cell_type.getD ""
  let source := String.join (cell.source.getD [])
  if cell_type = "markdown" then
    [Block.markdown ("### Markdown Cell " ++ toString (i + 1)),
     Block.markdown source,
     Block.markdown "---"]
  else if cell_type = "code" then
    let outputs := cell.outputs.getD []
    [Block.markdown ("### Code Cell " ++ toString (i + 1)),
     Block.code source "python"]
    ++ (if outputs.isEmpty then []
        else Block.markdown "**Output:**" :: (outputs.map renderOutput).flatten)
    ++ [Block.markdown "---"]
  else []

/-- The `for i, cell in enumerate(...)` loop of `src/main.py` line 17,
threading the 0-based index. -/
def renderCells (i : Nat) : List Cell → List Block
  | [] => []
  | cell :: rest => renderCell i cell ++ renderCells (i + 1) rest

/-- The whole of `display_notebook` (`src/main.py` lines 8-52) on the
outcome of `open` + `json.load`: on success, the fixed
`## Notebook Contents` heading (line 14) followed by the cell loop; on any
caught exception, the `st.error` / `st.info` diagnostics of the `except`
branch (lines 50-52) and nothing else. -/
def display_notebook (loaded : Except String Notebook) : List Block :=
  match loaded with
  | .error e =>
      [Block.error ("Error loading notebook: " ++ e),
       Block.info "Please make sure the notebook file is in the same directory as this app."]
  | .ok notebook_content =>
      Block.markdown "## Notebook Contents"
        :: renderCells 0 (notebook_content.cells.getD [])

/-- A diagnostic block is one produced by the `except` branch
(`st.error` or `st.info`), as opposed to rendered notebook content. -/
def Block.isDiagnostic : Block → Bool
  | .error _ => true
  | .info _ => true
  | _ => false

/-- An image block handed to the display layer (`st.image`), in either the
code's URL form or the specification's raw-bytes form. -/
def Block.isImageBlock : Block → Bool
  | .image _ => true
  | .imageBytes _ => true
  | _ => false

/-- Modelled from the spec: the value of one base64 alphabet character
(RFC 4648), `none` for a character outside the alphabet.  `src/main.py`
never decodes base64 in its render path; this decoder exists to state the
specification's "decode it from base64 into raw bytes" sub-operation. -/
def base64Char (c : Char) : Option Nat :=
  if 'A' ≤ c ∧ c ≤ 'Z' then some (c.toNat - 65)
  else if 'a' ≤ c ∧ c ≤ 'z' then some (c.toNat - 97 + 26)
  else if '0' ≤ c ∧ c ≤ '9' then some (c.toNat - 48 + 52)
  else if c = '+' then some 62
  else if c = '/' then some 63
  else none

/-- Modelled from the spec: base64 decoding of a character list, four
characters (24 bits) at a time, with `=` padding allowed only in the final
group; `none` on any malformed input. -/
def base64DecodeGroups : List Char → Option (List Nat)
  | [] => some []
  | c1 :: c2 :: c3 :: c4 :: rest => do
      let a ← base64Char c1
      let b ← base64Char c2
      if c3 = '=' then
        if c4 = '=' ∧ rest = [] then some [a * 4 + b / 16] else none
      else do
        let c ← base64Char c3
        if c4 = '=' then
          if rest = [] then some [a * 4 + b / 16, b % 16 * 16 + c / 4] else none
        else do
          let d ← base64Char c4
          let tail ← base64DecodeGroups rest
          some ([a * 4 + b / 16, b % 16 * 16 + c / 4, c % 4 * 64 + d] ++ tail)
  | _ => none

/-- Modelled from the spec: "decode it from base64 into raw bytes";
`none` exactly when the payload is malformed base64. -/
def base64Decode (s : String) : Option (List Nat) :=
  base64DecodeGroups s.data

/-- Modelled from the spec: the image block the specification describes —
"decode it from base64 into raw bytes and hand the bytes to the display
layer as an opaque binary blob tagged image/png". -/
def specRenderImage (payload : String) : Option Block :=
  (base64Decode payload).map Block.imageBytes

/-! ### Concrete documents used by counterexamples and witnesses -/

/-- A notebook error output: `output_type: "error"` with a `traceback`,
and no `text` or `data` key, as produced by a raised exception. -/
def errOutput : Output := ⟨some "error", none, none, some ["line1", "line2"]⟩

/-- A notebook whose single code cell carries only `errOutput`. -/
def errNotebook : Notebook := ⟨some [⟨some "code", some ["x"], some [errOutput]⟩]⟩

/-- An output whose `data` carries an `image/png` payload `"QUJD"`
(valid base64 of the bytes `[65, 66, 67]`, i.e. `"ABC"`). -/
def pngOutput : Output := ⟨some "display_data", none, some ⟨none, some "QUJD"⟩, none⟩

/-- An output whose `image/png` payload `"!!!"` is malformed base64. -/
def badPngOutput : Output := ⟨some "display_data", none, some ⟨none, some "!!!"⟩, none⟩

/-- A notebook whose single code cell carries only `badPngOutput`. -/
def badPngNotebook : Notebook := ⟨some [⟨some "code", some ["y"], some [badPngOutput]⟩]⟩

/-- A notebook mixing a code cell, a markdown cell and an unrecognized
`raw` cell, in that order. -/
def mixedNotebook : Notebook :=
  ⟨some [⟨some "code", some ["c"], none⟩,
         ⟨some "markdown", some ["m"], none⟩,
         ⟨some "raw", none, none⟩]⟩

/-- A notebook holding a markdown cell followed by a code cell. -/
def twoCellNotebook : Notebook :=
  ⟨some [⟨some "markdown", some ["a"], none⟩, ⟨some "code", some ["b"], none⟩]⟩

/-- A code cell with one (text) output. -/
def labeledCell : Cell :=
  ⟨some "code", some ["w"], some [⟨some "stream", some ["42"], none, none⟩]⟩

/-! ### C4: load failure yields only diagnostics -/

/-- C4: when `open` + `json.load` fails (missing path, undecodable UTF-8,
malformed JSON), `display_notebook` emits exactly the two diagnostic
blocks of the `except` branch — the `st.error` message carrying the
exception text and the fixed `st.info` hint — and no render block at
all: no partial sequence is surfaced. -/
theorem load_failure_yields_diagnostics_only (e : String) :
    display_notebook (Except.error e) =
      [Block.error ("Error loading notebook: " ++ e),
       Block.info "Please make sure the notebook file is in the same directory as this app."] ∧
    (display_notebook (Except.error e)).all Block.isDiagnostic = true :=
  ⟨rfl, rfl⟩

/-! ### C5: markdown source fragments concatenated with empty separator -/

/-- C5: a markdown cell at loop index `i` emits exactly its 1-based
heading, a markdown block whose text is the source fragments joined with
the empty separator (Python `''.join`), and the `---` separator. -/
theorem markdown_source_concatenated (i : Nat) (cell : Cell)
    (h : cell.cell_type = some "markdown") :
    renderCell i cell =
      [Block.markdown ("### Markdown Cell " ++ toString (i + 1)),
       Block.markdown (String.join (cell.source.getD [])),
       Block.markdown "---"] := by
  simp [renderCell, h]

/-- Witness for C5 at the spec's own example: source
`["# Hi", "\nbody"]` yields markdown text `"# Hi\nbody"`. -/
theorem markdown_source_concatenated_witness :
    renderCell 0 ⟨some "markdown", some ["# Hi", "\nbody"], none⟩ =
      [Block.markdown "### Markdown Cell 1",
       Block.markdown "# Hi\nbody",
       Block.markdown "---"] :=
  (markdown_source_concatenated 0 ⟨some "markdown", some ["# Hi", "\nbody"], none⟩ rfl).trans
    (by decide)

/-! ### C6: zero cells -/

/-- C6 counterexample: with `cells` absent or empty the render does not
return an empty block sequence — line 14 of `src/main.py` unconditionally
emits the `## Notebook Contents` heading before the cell loop. -/
theorem empty_cells_counterexample :
    display_notebook (Except.ok ⟨none⟩) = [Block.markdown "## Notebook Contents"] ∧
    display_notebook (Except.ok ⟨some []⟩) = [Block.markdown "## Notebook Contents"] ∧
    display_notebook (Except.ok ⟨none⟩) ≠ ([] : List Block) := by
  decide

/-- C6 amended: for a document with zero cells (`cells: []` or key
absent), the render succeeds with no error and emits no cell-derived
block; the output is exactly the fixed `## Notebook Contents` heading. -/
theorem empty_cells_title_only (nb : Notebook)
    (h : nb.cells = none ∨ nb.cells = some []) :
    display_notebook (Except.ok nb) = [Block.markdown "## Notebook Contents"] := by
  rcases h with h | h <;> simp [display_notebook, h, renderCells]

/-- Witness for C6 amended at the document with no `cells` key. -/
theorem empty_cells_title_only_witness :
    display_notebook (Except.ok ⟨none⟩) = [Block.markdown "## Notebook Contents"] :=
  empty_cells_title_only ⟨none⟩ (Or.inl rfl)

/-! ### C8: unrecognized cell types are skipped -/

/-- C8: a cell whose `cell_type` is neither `markdown` nor `code`
(including an absent `cell_type`, which defaults to `""`) emits no block
at all — neither heading nor content — and raises no error. -/
theorem other_cell_type_emits_nothing (i : Nat) (cell : Cell)
    (h1 : cell.cell_type.getD "" ≠ "markdown")
    (h2 : cell.cell_type.getD "" ≠ "code") :
    renderCell i cell = [] := by
  simp [renderCell, h1, h2]

/-- Witness for C8 at a `raw` cell and at a cell with no `cell_type`. -/
theorem other_cell_type_emits_nothing_witness :
    renderCell 0 ⟨some "raw", some ["z"], none⟩ = [] ∧
    renderCell 0 ⟨none, some ["z"], none⟩ = [] :=
  ⟨other_cell_type_emits_nothing 0 ⟨some "raw", some ["z"], none⟩ (by decide) (by decide),
   other_cell_type_emits_nothing 0 ⟨none, some ["z"], none⟩ (by decide) (by decide)⟩

/-! ### C1: error outputs -/

/-- C1 counterexample: `src/main.py` never inspects `output_type` or
`traceback` — classification (lines 38-46) checks only the `text` and
`data` keys.  For the code cell whose single output is
`{"output_type": "error", "traceback": ["line1", "line2"]}` the render
emits no block whose text is the tracebacks joined with newlines; and for
an output carrying both an error traceback and a `text` key, the `text`
key wins, so error outputs take no precedence. -/
theorem error_output_counterexample :
    display_notebook (Except.ok errNotebook) =
      [Block.markdown "## Notebook Contents",
       Block.markdown "### Code Cell 1",
       Block.code "x" "python",
       Block.markdown "**Output:**",
       Block.markdown "---"] ∧
    Block.text "line1\nline2" ∉ display_notebook (Except.ok errNotebook) ∧
    renderOutput ⟨some "error", some ["42"], none, some ["tb"]⟩ = [Block.text "42"] := by
  decide

/-- C1 amended: an output carrying neither a `text` nor a `data` key — in
particular a notebook error output, which has only `output_type`,
`ename`, `evalue` and `traceback` — matches no recognized shape and emits
no block; and the classification never consults `output_type` or
`traceback` at all. -/
theorem error_outputs_not_recognized :
    (∀ o : Output, o.text = none → o.data = none → renderOutput o = []) ∧
    (∀ (o : Output) (ot : Option String) (tb : Option (List String)),
      renderOutput { o with output_type := ot, traceback := tb } = renderOutput o) := by
  constructor
  · intro o h1 h2
    simp [renderOutput, h1, h2]
  · intro o ot tb
    rfl

/-- Witness for C1 amended at the concrete error output. -/
theorem error_outputs_not_recognized_witness :
    renderOutput errOutput = [] :=
  error_outputs_not_recognized.1 errOutput rfl rfl

/-! ### C2: image/png payloads are not decoded -/

/-- C2 counterexample: for the valid base64 payload `"QUJD"` (decoding to
the bytes `[65, 66, 67]`), `src/main.py` line 46 emits the undecoded
payload embedded in a `data:` URL string; the block the specification
describes — raw decoded bytes — is not among the emitted blocks. -/
theorem image_not_decoded_counterexample :
    renderOutput pngOutput = [Block.image "data:image/png;base64,QUJD"] ∧
    specRenderImage "QUJD" = some (Block.imageBytes [65, 66, 67]) ∧
    Block.imageBytes [65, 66, 67] ∉ renderOutput pngOutput := by
  decide

/-- C2 amended: an output (with no `text` key) whose `data` carries an
`image/png` payload `p` yields exactly one image block, whose payload is
the string `data:image/png;base64,` followed by the undecoded base64 text
`p`; no base64 decoding takes place. -/
theorem image_payload_passed_through (o : Output) (d : OutputData) (p : String)
    (h1 : o.text = none) (h2 : o.data = some d) (h3 : d.image_png = some p) :
    (renderOutput o).filter Block.isImageBlock
      = [Block.image ("data:image/png;base64," ++ p)] := by
  obtain ⟨tp, ip⟩ := d
  cases h3
  cases tp <;> simp [renderOutput, h1, h2, Block.isImageBlock]

/-- Witness for C2 amended at the payload `"QUJD"`. -/
theorem image_payload_passed_through_witness :
    (renderOutput pngOutput).filter Block.isImageBlock
      = [Block.image "data:image/png;base64,QUJD"] :=
  (image_payload_passed_through pngOutput ⟨none, some "QUJD"⟩ "QUJD" rfl rfl rfl).trans
    (by decide)

/-! ### C3: malformed base64 does not abort the render -/

/-- Helper: output classification emits no diagnostic block. -/
lemma renderOutput_not_diagnostic (o : Output) :
    (renderOutput o).all (fun b => !b.isDiagnostic) = true := by
  obtain ⟨ot, t, d, tb⟩ := o
  cases t with
  | some t => simp [renderOutput, Block.isDiagnostic]
  | none =>
    cases d with
    | none => simp [renderOutput]
    | some dd =>
      obtain ⟨tp, ip⟩ := dd
      cases tp <;> cases ip <;> simp [renderOutput, Block.isDiagnostic]

/-- Helper: the block list a code cell renders to, spelled out. -/
lemma renderCell_code (i : Nat) (cell : Cell) (h : cell.cell_type.getD "" = "code") :
    renderCell i cell =
      [Block.markdown ("### Code Cell " ++ toString (i + 1)),
       Block.code (String.join (cell.source.getD [])) "python"]
      ++ (if (cell.outputs.getD []).isEmpty then []
          else Block.markdown "**Output:**" :: ((cell.outputs.getD []).map renderOutput).flatten)
      ++ [Block.markdown "---"] := by
  simp [renderCell, h]

/-- Helper: the classified output blocks of a whole outputs list contain
no diagnostic block. -/
lemma flatten_renderOutput_not_diagnostic (outs : List Output) :
    ((outs.map renderOutput).flatten).all (fun b => !b.isDiagnostic) = true := by
  induction outs with
  | nil => rfl
  | cons o rest ih =>
    simp only [List.map_cons, List.flatten_cons, List.all_append, Bool.and_eq_true]
    exact ⟨renderOutput_not_diagnostic o, ih⟩

/-- Helper: rendering one cell emits no diagnostic block. -/
lemma renderCell_not_diagnostic (i : Nat) (cell : Cell) :
    (renderCell i cell).all (fun b => !b.isDiagnostic) = true := by
  by_cases h1 : cell.cell_type.getD "" = "markdown"
  · simp [renderCell, h1, Block.isDiagnostic]
  · by_cases h2 : cell.cell_type.getD "" = "code"
    · rw [renderCell_code i cell h2]
      by_cases h3 : (cell.outputs.getD []).isEmpty
      · simp [h3, Block.isDiagnostic]
      · rw [List.all_eq_true]
        intro b hb
        rw [List.mem_append, List.mem_append] at hb
        rcases hb with (hb | hb) | hb
        · rcases List.mem_cons.mp hb with rfl | hb
          · rfl
          · rcases List.mem_cons.mp hb with rfl | hb
            · rfl
            · cases hb
        · rw [if_neg h3] at hb
          rcases List.mem_cons.mp hb with rfl | hb
          · rfl
          · obtain ⟨l, hl, hbl⟩ := List.mem_flatten.mp hb
            obtain ⟨o, _, rfl⟩ := List.mem_map.mp hl
            have h := renderOutput_not_diagnostic o
            rw [List.all_eq_true] at h
            exact h b hbl
        · rcases List.mem_cons.mp hb with rfl | hb
          · rfl
          · cases hb
    · simp [renderCell, h1, h2]

/-- Helper: the cell loop emits no diagnostic block. -/
lemma renderCells_not_diagnostic (i : Nat) (cs : List Cell) :
    (renderCells i cs).all (fun b => !b.isDiagnostic) = true := by
  induction cs generalizing i with
  | nil => rfl
  | cons c rest ih =>
    simp only [renderCells, List.all_append, Bool.and_eq_true]
    exact ⟨renderCell_not_diagnostic i c, ih (i + 1)⟩

/-- C3 counterexample: a notebook whose code cell carries the malformed
base64 image payload `"!!!"` renders completely and successfully — the
payload is embedded undecoded in a `data:` URL, no decoding happens
during render, and no diagnostic (error) block is emitted, so the render
call does not fail. -/
theorem malformed_base64_counterexample :
    display_notebook (Except.ok badPngNotebook) =
      [Block.markdown "## Notebook Contents",
       Block.markdown "### Code Cell 1",
       Block.code "y" "python",
       Block.markdown "**Output:**",
       Block.image "data:image/png;base64,!!!",
       Block.markdown "---"] ∧
    base64Decode "!!!" = none ∧
    (display_notebook (Except.ok badPngNotebook)).all (fun b => !b.isDiagnostic) = true := by
  decide

/-- C3 amended: rendering a successfully loaded document never fails —
no diagnostic block is ever emitted on the success path — and a malformed
`image/png` payload is still handed to the display layer, embedded
undecoded in the `data:` URL, rather than aborting the render. -/
theorem render_never_fails :
    (∀ nb : Notebook,
      (display_notebook (Except.ok nb)).all (fun b => !b.isDiagnostic) = true) ∧
    (∀ (o : Output) (d : OutputData) (p : String), o.text = none → o.data = some d →
      d.image_png = some p → base64Decode p = none →
      Block.image ("data:image/png;base64," ++ p) ∈ renderOutput o) := by
  constructor
  · intro nb
    simp only [display_notebook, List.all_cons, Bool.and_eq_true]
    exact ⟨rfl, renderCells_not_diagnostic 0 (nb.cells.getD [])⟩
  · intro o d p h1 h2 h3 _
    obtain ⟨tp, ip⟩ := d
    cases h3
    cases tp <;> simp [renderOutput, h1, h2]

/-- Witness for C3 amended at the malformed payload `"!!!"`. -/
theorem render_never_fails_witness :
    (display_notebook (Except.ok badPngNotebook)).all (fun b => !b.isDiagnostic) = true ∧
    Block.image "data:image/png;base64,!!!" ∈ renderOutput badPngOutput :=
  ⟨render_never_fails.1 badPngNotebook,
   render_never_fails.2 badPngOutput ⟨none, some "!!!"⟩ "!!!" rfl rfl rfl (by decide)⟩

/-! ### C7: cells render in document order with 1-based labels -/

/-- Helper: the loop starting at index `k` renders the flattened,
in-order image of `renderCell` over the cells enumerated from `k`. -/
lemma renderCells_eq_enum_flatten (k : Nat) (cs : List Cell) :
    renderCells k cs = ((cs.enumFrom k).map fun p => renderCell p.1 p.2).flatten := by
  induction cs generalizing k with
  | nil => rfl
  | cons c rest ih => simp [renderCells, List.enumFrom, ih]

/-- C7: the render output is exactly the title heading followed by the
concatenation, in document order, of each cell's blocks at its 0-based
position (so for positions `i < j` every block of cell `i` precedes every
block of cell `j`); and a rendered markdown or code cell's heading block
is labeled with its 1-based position. -/
theorem cells_rendered_in_order :
    (∀ nb : Notebook,
      display_notebook (Except.ok nb) =
        Block.markdown "## Notebook Contents"
          :: (((nb.cells.getD []).enum.map fun p => renderCell p.1 p.2).flatten)) ∧
    (∀ (i : Nat) (cell : Cell), cell.cell_type = some "markdown" →
      (renderCell i cell).head? =
        some (Block.markdown ("### Markdown Cell " ++ toString (i + 1)))) ∧
    (∀ (i : Nat) (cell : Cell), cell.cell_type = some "code" →
      (renderCell i cell).head? =
        some (Block.markdown ("### Code Cell " ++ toString (i + 1)))) := by
  refine ⟨fun nb => ?_, fun i cell h => ?_, fun i cell h => ?_⟩
  · rw [display_notebook, renderCells_eq_enum_flatten]
    rfl
  · simp [renderCell, h]
  · rw [renderCell_code i cell (by rw [h]; rfl)]
    rfl

/-- Witness for C7 at a three-cell notebook mixing code, markdown and an
ignored raw cell. -/
theorem cells_rendered_in_order_witness :
    display_notebook (Except.ok mixedNotebook) =
      [Block.markdown "## Notebook Contents",
       Block.markdown "### Code Cell 1",
       Block.code "c" "python",
       Block.markdown "---",
       Block.markdown "### Markdown Cell 2",
       Block.markdown "m",
       Block.markdown "---"] ∧
    (renderCell 1 ⟨some "markdown", some ["m"], none⟩).head? =
      some (Block.markdown "### Markdown Cell 2") ∧
    (renderCell 0 ⟨some "code", some ["c"], none⟩).head? =
      some (Block.markdown "### Code Cell 1") :=
  ⟨(cells_rendered_in_order.1 mixedNotebook).trans (by decide),
   (cells_rendered_in_order.2.1 1 ⟨some "markdown", some ["m"], none⟩ rfl).trans (by decide),
   (cells_rendered_in_order.2.2 0 ⟨some "code", some ["c"], none⟩ rfl).trans (by decide)⟩

/-! ### C9: nothing is emitted after the last cell -/

/-- Helper: the loop distributes over list append, shifting the index. -/
lemma renderCells_append (k : Nat) (xs ys : List Cell) :
    renderCells k (xs ++ ys) = renderCells k xs ++ renderCells (k + xs.length) ys := by
  induction xs generalizing k with
  | nil => rfl
  | cons x rest ih =>
    have harith : k + 1 + rest.length = k + (rest.length + 1) := by omega
    simp [renderCells, ih, harith, List.append_assoc]

/-- C9: for a document whose cells are `init` followed by a last cell
`c`, the whole output is the title and the blocks of `init` immediately
followed by the blocks of `c` — the sequence ends right after the last
cell's blocks, with no trailing block. -/
theorem no_block_after_last_cell (nb : Notebook) (init : List Cell) (c : Cell)
    (h : nb.cells = some (init ++ [c])) :
    display_notebook (Except.ok nb) =
      (Block.markdown "## Notebook Contents" :: renderCells 0 init)
        ++ renderCell init.length c := by
  simp [display_notebook, h, renderCells_append, renderCells]

/-- Witness for C9 at a two-cell notebook. -/
theorem no_block_after_last_cell_witness :
    display_notebook (Except.ok twoCellNotebook) =
      (Block.markdown "## Notebook Contents"
          :: renderCells 0 [⟨some "markdown", some ["a"], none⟩])
        ++ renderCell 1 ⟨some "code", some ["b"], none⟩ :=
  no_block_after_last_cell twoCellNotebook [⟨some "markdown", some ["a"], none⟩]
    ⟨some "code", some ["b"], none⟩ rfl

/-! ### C10: the Output label appears iff outputs are non-empty -/

/-- Helper: a code-cell heading label is never the string
`**Output:**` (their lengths differ). -/
lemma code_heading_ne_label (i : Nat) :
    ("### Code Cell " ++ toString (i + 1)) ≠ "**Output:**" := by
  intro heq
  have hlen := congrArg String.length heq
  rw [String.length_append] at hlen
  have h14 : ("### Code Cell " : String).length = 14 := by decide
  have h11 : ("**Output:**" : String).length = 11 := by decide
  rw [h14, h11] at hlen
  omega

/-- Helper: output classification never emits a markdown block. -/
lemma renderOutput_no_markdown (o : Output) (s : String) :
    Block.markdown s ∉ renderOutput o := by
  obtain ⟨ot, t, d, tb⟩ := o
  cases t with
  | some t => simp [renderOutput]
  | none =>
    cases d with
    | none => simp [renderOutput]
    | some dd =>
      obtain ⟨tp, ip⟩ := dd
      cases tp <;> cases ip <;> simp [renderOutput]

/-- C10: for a code cell, the literal `**Output:**` label block appears
among its blocks exactly when the cell's `outputs` list is non-empty, and
when it appears it sits at position 2, right between the code block and
the first output block. -/
theorem output_label_iff_outputs (i : Nat) (cell : Cell)
    (h : cell.cell_type = some "code") :
    (Block.markdown "**Output:**" ∈ renderCell i cell ↔ cell.outputs.getD [] ≠ []) ∧
    (cell.outputs.getD [] ≠ [] →
      (renderCell i cell).get? 2 = some (Block.markdown "**Output:**")) := by
  have hc : cell.cell_type.getD "" = "code" := by rw [h]; rfl
  by_cases h3 : (cell.outputs.getD []).isEmpty
  · have hnil : cell.outputs.getD [] = [] := by
      cases hl : cell.outputs.getD [] with
      | nil => rfl
      | cons a t => rw [hl] at h3; simp at h3
    refine ⟨?_, fun hne => absurd hnil hne⟩
    rw [renderCell_code i cell hc, if_pos h3, hnil]
    simp only [ne_eq, not_true_eq_false, iff_false]
    intro hm
    simp only [List.append_nil, List.mem_append, List.mem_cons,
      List.not_mem_nil, or_false] at hm
    rcases hm with (hm | hm) | hm
    · exact code_heading_ne_label i (Block.markdown.inj hm).symm
    · cases hm
    · exact absurd (Block.markdown.inj hm) (by decide)
  · have hne : cell.outputs.getD [] ≠ [] := by
      intro hnil
      rw [hnil] at h3
      exact h3 rfl
    refine ⟨⟨fun _ => hne, fun _ => ?_⟩, fun _ => ?_⟩
    · rw [renderCell_code i cell hc, if_neg h3]
      simp
    · rw [renderCell_code i cell hc, if_neg h3]
      simp only [List.cons_append, List.nil_append]
      rfl


/-- Witness for C10 at a code cell with one text output. -/
theorem output_label_iff_outputs_witness :
    Block.markdown "**Output:**" ∈ renderCell 0 labeledCell ∧
    (renderCell 0 labeledCell).get? 2 = some (Block.markdown "**Output:**") :=
  ⟨(output_label_iff_outputs 0 labeledCell rfl).1.mpr (by decide),
   (output_label_iff_outputs 0 labeledCell rfl).2 (by decide)⟩

/-- Witness for C4 at a concrete exception message. -/
theorem load_failure_yields_diagnostics_only_witness :
    display_notebook (Except.error "Expecting value: line 1 column 1 (char 0)") =
      [Block.error "Error loading notebook: Expecting value: line 1 column 1 (char 0)",
       Block.info "Please make sure the notebook file is in the same directory as this app."] ∧
    (display_notebook
        (Except.error "Expecting value: line 1 column 1 (char 0)")).all Block.isDiagnostic = true :=
  ⟨(load_failure_yields_diagnostics_only "Expecting value: line 1 column 1 (char 0)").1.trans
      (by decide),
   (load_failure_yields_diagnostics_only "Expecting value: line 1 column 1 (char 0)").2⟩
